import Mathlib

/-
  Verification development for the LinkedIn ad-image generation service.

  Shallow embedding of the pipeline implemented in `be/services/image_service.py`
  (class `ImageGenerationService`), `be/routers/streaming.py` and
  `be/routers/image_generation.py`.

  Modelling conventions:
  * The two external capability clients (`self.openai_client`, `self.llm`) are
    modelled by boolean presence flags plus per-call-site outcome fields in an
    `Env` record; each outcome is an arbitrary value quantified over in the
    theorems, so a theorem about "for every run" quantifies over `Env`.
  * `str(uuid.uuid4())` is modelled as an injective draw from a counter that is
    threaded through the functions (`uuidStr g`, returning the new counter).
  * `datetime.now().isoformat()` is the environment field `now`.
  * Awaiting `asyncio.sleep` and issuing capability calls are recorded in an
    explicit action trace (`Act`), so pacing/call-count claims are theorems
    about the trace.
  * Long static prompt prose is carried verbatim where a claim touches the
    function (the per-style fallback prompt table), and abridged to its leading
    words elsewhere (marked `abridged`); no theorem inspects the abridged text.
  * Python truthiness on strings/lists is modelled as `≠ ""` / `≠ []`.
-/

/-- Model of `models.ImageStyle` (a closed string enumeration). -/
inductive ImageStyle
  | professional
  | modern
  | creative
  | minimalist
  | bold
deriving DecidableEq, Repr

/-- Model of `ImageStyle.value`, the enum string payload. -/
def ImageStyle.value : ImageStyle → String
  | .professional => "professional"
  | .modern => "modern"
  | .creative => "creative"
  | .minimalist => "minimalist"
  | .bold => "bold"

/-- Model of Python `style.value.title()`. -/
def ImageStyle.titled : ImageStyle → String
  | .professional => "Professional"
  | .modern => "Modern"
  | .creative => "Creative"
  | .minimalist => "Minimalist"
  | .bold => "Bold"

/-- Model of `ImageGenerationService.self.styles`: the fixed style order. -/
def styles : List ImageStyle :=
  [.professional, .modern, .creative, .minimalist, .bold]

/-- Model of `models.ImageGenerationRequest` (the URL kept as its string form). -/
structure ImageGenerationRequest where
  company_url : String
  product_name : String
  business_value : String
  audience : String
  body_text : String
  footer_text : String
deriving DecidableEq, Repr

/-- Model of `models.ImageModificationRequest`. -/
structure ImageModificationRequest where
  original_image_url : String
  modification_prompt : String
deriving DecidableEq, Repr

/-- Model of `models.GeneratedImage`. -/
structure GeneratedImage where
  id : String
  url : String
  style : ImageStyle
  prompt_used : String
  generation_timestamp : String
  request_id : Option String := none
deriving DecidableEq, Repr

/-- Model of `image_service.ReferenceImage`. -/
structure ReferenceImage where
  id : String
  base64_image : String
deriving DecidableEq, Repr

/-- Model of the ad-copy dictionary `headline/description/cta` (`models.AdCopy`). -/
structure AdCopy where
  headline : String
  description : String
  cta : String
deriving DecidableEq, Repr

/-- Model of `image_service.WorkflowState`. -/
structure WorkflowState where
  request : ImageGenerationRequest
  company_analysis : Option String := none
  enhanced_prompts : Option (List String) := none
  ad_copy : Option AdCopy := none
  reference_images : Option (List ReferenceImage) := none
  generated_images : Option (List GeneratedImage) := none
  error : Option String := none
deriving DecidableEq, Repr

/-- Model of one `str(uuid.uuid4())` draw: an injective function of the draw
counter. -/
def uuidStr (g : Nat) : String :=
  "uuid-" ++ toString g

/-- Outcome of one text-completion capability call (`self.llm.ainvoke`):
either the call raises, or it returns a message content string. -/
inductive TextOutcome
  | err (msg : String)
  | ok (content : String)
deriving DecidableEq, Repr

/-- Outcome of one ad-copy capability call: either the call raises, or it
returns content whose JSON parse (`json.loads`) yields an ad-copy record or
fails (`parsed = none`). -/
inductive CopyOutcome
  | err (msg : String)
  | reply (content : String) (parsed : Option AdCopy)
deriving DecidableEq, Repr

/-- Outcome of one image-generation capability call
(`self.openai_client.responses.create`): either the call raises, or it returns
a list of `image_generation_call` result payloads (base64 strings). -/
inductive ImageCapOutcome
  | err (msg : String)
  | ok (image_data : List String)
deriving DecidableEq, Repr

/-- External-capability environment for one run.  `openai_client` / `llm`
model the presence of the two client handles (`None` when no API key);
the remaining fields give the (arbitrary) outcome each call site would
observe in this run. -/
structure Env where
  openai_client : Bool
  llm : Bool
  analyzeCap : TextOutcome
  enhanceCap : ImageStyle → TextOutcome
  copyCap : CopyOutcome
  imageCap : ImageStyle → ImageCapOutcome
  modifyUploadOk : Bool
  modifyCap : ImageCapOutcome
  now : String

/-- Abstract model of `base64.b64encode(...).decode("utf-8")`. -/
def base64encode (bytes : String) : String :=
  "base64:" ++ bytes

/-- Observable actions of a run, recorded as a trace: awaited sleeps and
capability calls. -/
inductive Act
  | sleep (seconds : Nat)
  | imageCapCall (style : ImageStyle)
  | textCapCall
deriving DecidableEq, Repr

/-- Model of `_generate_single_image(prompt, style, request_id)`.

Source (`image_service.py:516-614`): the whole body is wrapped in
`try/except Exception`, and the `except` branch returns a placeholder
`GeneratedImage`; hence the function is total (it never raises):
* no client (no API key): returns the `Modified+<Style>` placeholder without
  any capability call;
* capability call raises: the `except` branch returns the plain placeholder;
* capability call returns an empty `image_generation_call` list: the code
  executes `print(response.output.content)`, and since `response.output` is a
  list the attribute access raises `AttributeError`, landing in the same
  `except` placeholder branch;
* otherwise the first payload is written under
  `static/<style>_<uuid[:8]>.png` and a localhost URL is returned.
Returns (image, next uuid counter, action trace). -/
def generate_single_image (env : Env) (prompt : String) (style : ImageStyle)
    (request_id : Option String) (g : Nat) :
    GeneratedImage × Nat × List Act :=
  if env.openai_client = false then
    ({ id := uuidStr g,
       url := "https://placeholdit.com/1024x1024/f3f4f6/6b7280?text=Modified+"
                ++ style.titled,
       style := style,
       prompt_used := prompt,
       generation_timestamp := env.now,
       request_id := request_id }, g + 1, [])
  else
    match env.imageCap style with
    | .err _ =>
        ({ id := uuidStr g,
           url := "https://placeholdit.com/1024x1024/f3f4f6/6b7280",
           style := style,
           prompt_used := prompt,
           generation_timestamp := env.now,
           request_id := request_id }, g + 1, [Act.imageCapCall style])
    | .ok image_data =>
        match image_data with
        | [] =>
            ({ id := uuidStr (g + 1),
               url := "https://placeholdit.com/1024x1024/f3f4f6/6b7280",
               style := style,
               prompt_used := prompt,
               generation_timestamp := env.now,
               request_id := request_id }, g + 2, [Act.imageCapCall style])
        | _ :: _ =>
            ({ id := uuidStr (g + 1),
               url := "http://localhost:8000/static/" ++ style.value ++ "_"
                        ++ (uuidStr g).take 8 ++ ".png",
               style := style,
               prompt_used := prompt,
               generation_timestamp := env.now,
               request_id := request_id }, g + 2, [Act.imageCapCall style])

/-- Model of `_get_style_description(style)`: a static lookup table keyed by
style (prose abridged to its leading words; no theorem inspects it). -/
def get_style_description : ImageStyle → String
  | .professional => "Professional business person on clean, simple background. (abridged)"
  | .modern => "Modern professional with tech-forward styling on minimalist backdrop. (abridged)"
  | .creative => "Creative professional with artistic but business-appropriate styling. (abridged)"
  | .minimalist => "Ultra-clean portrait with maximum simplicity. (abridged)"
  | .bold => "Confident professional with strong visual impact on high-contrast background. (abridged)"

/-- Model of `_create_fallback_prompt_for_style(request, style)`: the
deterministic per-style fallback prompt table used when `self.llm` is absent
(full text from `image_service.py:1054-1071`). -/
def create_fallback_prompt_for_style (request : ImageGenerationRequest)
    (style : ImageStyle) : String :=
  let base_context :=
    "professional " ++ request.product_name ++ " for " ++ request.audience
  match style with
  | .professional =>
      "Professional business person in suit, confident expression, shot on Canon 5D with studio lighting, solid white or light gray background, upper body composition, diverse representation, high contrast for text overlay, square format, LinkedIn optimized. Context: "
        ++ base_context
  | .modern =>
      "Modern business professional in contemporary attire, tech-savvy appearance, clean navy blue or teal solid background, professional photography, confident pose, diverse representation, high contrast, square format, mobile optimized. Context: "
        ++ base_context
  | .creative =>
      "Creative professional with expressive but business-appropriate styling, approachable demeanor, simple vibrant colored background, artistic lighting, engaging eye contact, diverse representation, clean composition, high contrast for text. Context: "
        ++ base_context
  | .minimalist =>
      "Single business professional headshot, simple clothing, pure white background, minimal composition, sharp focus on person, professional lighting, lots of negative space, diverse representation, ultra-clean design. Context: "
        ++ base_context
  | .bold =>
      "Confident business person with strong presence, professional attire, bold solid color background (deep blue or black), high contrast lighting, dynamic expression, diverse representation, square format, impactful composition. Context: "
        ++ base_context

/-- Model of `_create_fallback_prompt(request, style)`: the deterministic
prompt used by the fallback full-pipeline path (static prose abridged; the
interpolated fields are kept). -/
def create_fallback_prompt (request : ImageGenerationRequest)
    (style : ImageStyle) : String :=
  "Create a high-performing LinkedIn advertisement image for "
    ++ request.product_name ++ ".\n\nBusiness Value: " ++ request.business_value
    ++ "\nTarget Audience: " ++ request.audience
    ++ "\nBody Text Context: " ++ request.body_text
    ++ "\nCall-to-Action: " ++ request.footer_text
    ++ "\nStyle: " ++ get_style_description style
    ++ "\n\nLinkedIn Ad Optimization (abridged static prose)"

/-- Model of `_analyze_company(state)` (`image_service.py:105-145`).
Returns the new state plus the capability-call trace. -/
def analyze_company (env : Env) (st : WorkflowState) :
    WorkflowState × List Act :=
  if env.llm = false then
    ({ st with
        company_analysis := some ("Professional business analysis for "
          ++ st.request.product_name ++ " targeting " ++ st.request.audience) },
      [])
  else
    match env.analyzeCap with
    | .ok content => ({ st with company_analysis := some content }, [Act.textCapCall])
    | .err msg =>
        ({ st with error := some ("Company analysis failed: " ++ msg) },
          [Act.textCapCall])

/-- Model of the per-style loop of `_enhance_prompts` (`image_service.py:150-268`):
for each style, either the deterministic fallback prompt (no `self.llm`), or a
text-capability call whose failure aborts the whole loop (the `except` of the
stage).  Returns the accumulated prompts (or the raised message) plus the
capability-call trace. -/
def enhanceLoop (env : Env) (request : ImageGenerationRequest) :
    List ImageStyle → Except String (List String) × List Act
  | [] => (.ok [], [])
  | s :: rest =>
    if env.llm = false then
      let k := enhanceLoop env request rest
      (k.1.map (fun ps => create_fallback_prompt_for_style request s :: ps), k.2)
    else
      match env.enhanceCap s with
      | .err m => (.error m, [Act.textCapCall])
      | .ok c =>
        let k := enhanceLoop env request rest
        (k.1.map (fun ps => c.trim :: ps), Act.textCapCall :: k.2)

/-- Model of `_enhance_prompts(state)` (`image_service.py:147-275`): on loop
success assigns `state.enhanced_prompts`; on a capability error the stage
`except` records `state.error` and leaves the prompts unset. -/
def enhance_prompts (env : Env) (st : WorkflowState) :
    WorkflowState × List Act :=
  let k := enhanceLoop env st.request styles
  match k.1 with
  | .ok ps => ({ st with enhanced_prompts := some ps }, k.2)
  | .error m =>
      ({ st with error := some ("Prompt enhancement failed: " ++ m) }, k.2)

/-- Fallback ad copy used when `self.llm` is absent (`image_service.py:363-367`). -/
def adCopyFallbackNoLLM (request : ImageGenerationRequest) : AdCopy :=
  { headline := "Transform Your Business with " ++ request.product_name,
    description := "Discover how " ++ request.product_name ++ " delivers "
      ++ request.business_value ++ " for " ++ request.audience
      ++ ". Join thousands of satisfied customers.",
    cta := "Book a Call" }

/-- Fallback ad copy used when the capability reply fails to parse as JSON
(`image_service.py:457-461`). -/
def adCopyFallbackParse (request : ImageGenerationRequest) : AdCopy :=
  { headline := "Ready to Transform Your " ++ request.audience ++ " Strategy?",
    description := "See how " ++ request.product_name ++ " delivers "
      ++ request.business_value
      ++ ". Join industry leaders who\x27ve already made the switch.",
    cta := "Book a Call" }

/-- Fallback ad copy used when the capability call raises
(`image_service.py:466-470`). -/
def adCopyFallbackError (request : ImageGenerationRequest) : AdCopy :=
  { headline := "What if " ++ request.audience ++ " Could Achieve "
      ++ request.business_value ++ "?",
    description := "Discover the proven solution that\x27s helping businesses like yours unlock "
      ++ request.business_value ++ ". Don\x27t let competitors get ahead.",
    cta := "Book a Call" }

/-- Model of the copy prompt built by `_generate_ad_copy`
(`image_service.py:370-446`): a static instruction body (abridged) with the
caller-supplied body/footer texts appended only as override *instructions*
when they are non-empty. -/
def adCopyPrompt (analysis : Option String) (request : ImageGenerationRequest) :
    String :=
  "Act as a LinkedIn advertising expert. Create high-converting B2B ad copy. Company Analysis: "
    ++ analysis.getD "Professional B2B business"
    ++ " Product/Service: " ++ request.product_name
    ++ " Core Values " ++ request.business_value
    ++ " Target Audience: " ++ request.audience
    ++ " (abridged static instructions) Return ONLY the JSON with no additional text or formatting."
    ++ (if request.body_text = "" then ""
        else "\n\n override description field with this text: " ++ request.body_text)
    ++ (if request.footer_text = "" then ""
        else "\n\n override cta field with this text: " ++ request.footer_text)

/-- Model of `_generate_ad_copy(state)` (`image_service.py:358-472`).  The
stage never sets `state.error`: every branch assigns an ad-copy record:
* no `self.llm`: the deterministic no-capability template;
* capability call raises: the error template;
* reply does not parse as JSON: the parse-failure template;
* reply parses: the parsed record is stored unchanged (no post-hoc override of
  `description`/`cta`; the caller texts only appear inside `adCopyPrompt`). -/
def generate_ad_copy (env : Env) (st : WorkflowState) :
    WorkflowState × List Act :=
  if env.llm = false then
    ({ st with ad_copy := some (adCopyFallbackNoLLM st.request) }, [])
  else
    match env.copyCap with
    | .err _ => ({ st with ad_copy := some (adCopyFallbackError st.request) },
        [Act.textCapCall])
    | .reply _ none =>
        ({ st with ad_copy := some (adCopyFallbackParse st.request) },
          [Act.textCapCall])
    | .reply _ (some c) => ({ st with ad_copy := some c }, [Act.textCapCall])

/-- Model of one file in the reference asset pool: its name, raw content,
whether opening/reading it succeeds, and whether the upload call
(`openai_client.files.create`) would succeed together with the handle id it
would return. -/
structure RefFile where
  name : String
  content : String
  readable : Bool
  uploadOk : Bool
  uploadId : String
deriving DecidableEq, Repr

/-- Model of the reference asset pool directory (`datasets/ref_imgs`): whether
it exists and the files the `*.png`/`*.jpg`/`*.jpeg` globs return. -/
structure RefPool where
  dirExists : Bool
  files : List RefFile
deriving DecidableEq, Repr

/-- Model of `random.choice` on a non-empty list: an arbitrary element selected
by the random draw `r`. -/
def pickOne (r : Nat) (x : α) (xs : List α) : α :=
  (x :: xs).get ⟨r % (xs.length + 1), Nat.mod_lt _ (Nat.succ_pos _)⟩

/-- Model of `random.sample(l, k)` (with `k ≤ l.length` at the call site): an
arbitrary selection of `k` of the elements, indexed by the random draw `r`. -/
def randomSample (r : Nat) (l : List α) (k : Nat) : List α :=
  (l.rotate r).take k

/-- Whether loading one pool file into a `ReferenceImage` succeeds: the file
must be readable, the client present (`self.openai_client.files.create` on a
`None` client raises `AttributeError`), and the upload call must not raise;
any failure is caught by the per-file `try/except` and the file is skipped. -/
def refLoadOk (env : Env) (f : RefFile) : Bool :=
  f.readable && env.openai_client && f.uploadOk

/-- Model of `_load_reference_images(state)` (`image_service.py:277-356`),
split into its two selections: one randomly chosen `main_ref*` file plus up to
two randomly sampled other files; every failure (missing directory, empty
pool, unreadable file, upload failure) merely drops files; no branch ever
touches `state.error` (the outer `except` assigns `reference_images = []` and
continues).  This is the `main_ref` selection (`image_service.py:302-319`). -/
def mainRefSelection (env : Env) (r1 : Nat)
    (main_ref_files : List RefFile) : List ReferenceImage :=
  match main_ref_files with
  | [] => []
  | x :: xs =>
    let f := pickOne r1 x xs
    if refLoadOk env f then
      [ReferenceImage.mk f.uploadId (base64encode f.content)]
    else []

/-- The "up to 2 random other images" selection (`image_service.py:321-340`). -/
def otherRefSelection (env : Env) (r2 : Nat)
    (other_files : List RefFile) : List ReferenceImage :=
  if other_files = [] then []
  else
    (randomSample r2 other_files (min 2 other_files.length)).filterMap
      (fun f =>
        if refLoadOk env f then
          some (ReferenceImage.mk f.uploadId (base64encode f.content))
        else none)

/-- The reference list computed by `_load_reference_images`. -/
def referenceSelection (env : Env) (pool : RefPool) (r1 r2 : Nat) :
    List ReferenceImage :=
  if pool.dirExists then
    if pool.files = [] then []
    else
      mainRefSelection env r1
          (pool.files.filter (fun f => f.name.startsWith "main_ref"))
        ++ otherRefSelection env r2
          (pool.files.filter (fun f => !(f.name.startsWith "main_ref")))
  else []

/-- Model of `_load_reference_images(state)` assembled from the parts above. -/
def load_reference_images (env : Env) (pool : RefPool) (r1 r2 : Nat)
    (st : WorkflowState) : WorkflowState :=
  { st with reference_images := some (referenceSelection env pool r1 r2) }

/-- Model of the sequential loop of `_generate_images_node`
(`image_service.py:484-502`) over `zip(state.enhanced_prompts, self.styles)`:
before every iteration except the first, `await asyncio.sleep(12)`; then one
`_generate_single_image` call.  The loop `except ... continue` never fires
because `_generate_single_image` is total, so no style is ever skipped.
Returns (images, action trace, next uuid counter). -/
def genImagesLoop (env : Env) (request_id : Option String) :
    Nat → Nat → List (String × ImageStyle) →
      List GeneratedImage × List Act × Nat
  | _, g, [] => ([], [], g)
  | i, g, (p, s) :: rest =>
    let r := generate_single_image env p s request_id g
    let k := genImagesLoop env request_id (i + 1) r.2.1 rest
    (r.1 :: k.1,
      (if 0 < i then [Act.sleep 12] else []) ++ r.2.2 ++ k.2.1,
      k.2.2)

/-- Result of the image-generation stage: new state, action trace, sessions
added to `self.image_storage`, next uuid counter. -/
structure NodeOut where
  state : WorkflowState
  trace : List Act
  storageAdd : List (String × List GeneratedImage)
  gen : Nat
deriving Repr

/-- Model of `_generate_images_node(state)` (`image_service.py:474-514`):
absent or empty prompts raise `ValueError`, caught by the stage `except`
which sets `state.error`; otherwise the loop runs, the images are assigned,
and a non-empty result is stored under a fresh request id.  No other branch
sets `state.error`. -/
def generate_images_node (env : Env) (st : WorkflowState) (g : Nat) : NodeOut :=
  match st.enhanced_prompts with
  | none =>
      ⟨{ st with error := some "Image generation failed: No enhanced prompts available" },
        [], [], g⟩
  | some ps =>
    if ps = [] then
      ⟨{ st with error := some "Image generation failed: No enhanced prompts available" },
        [], [], g⟩
    else
      let request_id := uuidStr g
      let r := genImagesLoop env (some request_id) 0 (g + 1) (ps.zip styles)
      ⟨{ st with generated_images := some r.1 },
        r.2.1,
        if r.1 = [] then [] else [(request_id, r.1)],
        r.2.2⟩

/-- Model of the loop of `_fallback_generation` (`image_service.py:869-872`):
one `_generate_single_image` call per style, with no inter-call sleep. -/
def fbLoop (env : Env) (request : ImageGenerationRequest)
    (request_id : Option String) :
    Nat → List ImageStyle → List GeneratedImage × List Act × Nat
  | g, [] => ([], [], g)
  | g, s :: rest =>
    let r := generate_single_image env (create_fallback_prompt request s) s
      request_id g
    let k := fbLoop env request request_id r.2.1 rest
    (r.1 :: k.1, r.2.2 ++ k.2.1, k.2.2)

/-- Model of `_fallback_generation(request)` (`image_service.py:862-878`):
deterministic per-style prompts, one capability call per style, no pacing
delay, result stored when non-empty.  Returns (images, trace, sessions added
to storage, next counter). -/
def fallback_generation (env : Env) (request : ImageGenerationRequest)
    (g : Nat) :
    List GeneratedImage × List Act × List (String × List GeneratedImage) × Nat :=
  let request_id := uuidStr g
  let r := fbLoop env request (some request_id) (g + 1) styles
  (r.1, r.2.1, (if r.1 = [] then [] else [(request_id, r.1)]), r.2.2)

/-- Model of the modification prompt template (`image_service.py:927-942`,
static prose abridged). -/
def modifyPrompt (modification_prompt : String) : String :=
  "Create a professional LinkedIn advertisement image based on this modification request: "
    ++ modification_prompt
    ++ "\n\nEnsure the image maintains LinkedIn B2B ad best practices (abridged static prose). Apply the requested modifications while maintaining these professional standards."

/-- Model of `modify_image(request)` (`image_service.py:919-1048`).

Control flow from the source:
* no client (no API key): return a placeholder `GeneratedImage` immediately
  (`image_service.py:944-952`) — the original image is never looked up;
* otherwise the original file name is taken from the URL after `/static/`;
  opening a missing file raises `FileNotFoundError`, the upload call or the
  capability call may raise, and an empty `image_generation_call` payload
  raises (`response.output.content` on a list); every raise is caught by the
  outer `except` which re-raises `Exception("Failed to modify image: ...")`,
  modelled as `Except.error`;
* on success a new image with a fresh id and default `professional` style is
  returned.
The method never reads or writes `self.image_storage`; the storage argument
is threaded through unchanged to make that frame property a statement. -/
def modify_image (env : Env) (static_files : List String)
    (storage : List (String × List GeneratedImage))
    (request : ImageModificationRequest) (g : Nat) :
    Except String GeneratedImage × List (String × List GeneratedImage) :=
  let modified_prompt := modifyPrompt request.modification_prompt
  let result : Except String GeneratedImage :=
    if env.openai_client = false then
      .ok { id := uuidStr g,
            url := "https://placeholdit.com/1024x1024/f3f4f6/6b7280?text=?text=Modified+Image",
            style := ImageStyle.professional,
            prompt_used := modified_prompt,
            generation_timestamp := env.now,
            request_id := none }
    else
      let image_name := (request.original_image_url.splitOn "/static/").getLastD ""
      if image_name ∈ static_files then
        if env.modifyUploadOk = false then
          .error "Failed to modify image: upload failed"
        else
          match env.modifyCap with
          | .err m => .error ("Failed to modify image: " ++ m)
          | .ok [] =>
              .error "Failed to modify image: list object has no attribute content"
          | .ok (_ :: _) =>
              .ok { id := uuidStr (g + 1),
                    url := "http://localhost:8000/static/modified_"
                      ++ (uuidStr g).take 8 ++ ".png",
                    style := ImageStyle.professional,
                    prompt_used := modified_prompt,
                    generation_timestamp := env.now,
                    request_id := none }
      else
        .error ("Failed to modify image: [Errno 2] No such file or directory: "
          ++ image_name)
  (result, storage)

/-- Progress events of the two streaming endpoints (free-text `message`
payloads omitted; only the event type and stage tag are modelled). -/
inductive SSEEvent
  | started
  | progress (step : String)
  | step_completed (step : String)
  | prompts_ready
  | copy_ready
  | image_ready
  | generation_complete
  | completed
  | errorEv
  | endEv
deriving DecidableEq, Repr

/-- Model of the per-style loop of `generate_images_with_progress`
(`image_service.py:777-819`): a progress event, then the pacing sleep (for
`i > 0`), then the capability call and an `image_ready` event.  Its
`except` branch (error event + `continue`) is unreachable because
`_generate_single_image` is total. -/
def gwpLoop (env : Env) (request_id : Option String) :
    Nat → Nat → List (String × ImageStyle) →
      List GeneratedImage × List SSEEvent × List Act × Nat
  | _, g, [] => ([], [], [], g)
  | i, g, (p, s) :: rest =>
    let r := generate_single_image env p s request_id g
    let k := gwpLoop env request_id (i + 1) r.2.1 rest
    (r.1 :: k.1,
      SSEEvent.progress "image_generation" :: SSEEvent.image_ready :: k.2.1,
      (if 0 < i then [Act.sleep 12] else []) ++ r.2.2 ++ k.2.2.1,
      k.2.2.2)

/-- Model of `generate_images_with_progress(request, callback)`
(`image_service.py:661-860`): the five stages run in order with progress /
completion events after each; a stage that set `state.error` makes the body
raise, and the `except` (`image_service.py:854-860`) emits an error event and
returns `_fallback_generation(request)`.  Returns (images, emitted events,
action trace, sessions added to storage, next counter). -/
def generate_images_with_progress (env : Env) (pool : RefPool) (r1 r2 : Nat)
    (request : ImageGenerationRequest) (g : Nat) :
    List GeneratedImage × List SSEEvent × List Act
      × List (String × List GeneratedImage) × Nat :=
  let request_id := uuidStr g
  let st0 : WorkflowState := { request := request }
  let ev0 := [SSEEvent.progress "company_analysis"]
  let a := analyze_company env st0
  match a.1.error with
  | some _ =>
    let fb := fallback_generation env request (g + 1)
    (fb.1, ev0 ++ [SSEEvent.errorEv], a.2 ++ fb.2.1, fb.2.2.1, fb.2.2.2)
  | none =>
    let ev1 := ev0 ++ [SSEEvent.step_completed "company_analysis",
      SSEEvent.progress "loading_references"]
    let b := load_reference_images env pool r1 r2 a.1
    match b.error with
    | some _ =>
      let fb := fallback_generation env request (g + 1)
      (fb.1, ev1 ++ [SSEEvent.errorEv], a.2 ++ fb.2.1, fb.2.2.1, fb.2.2.2)
    | none =>
      let ev2 := ev1 ++ [SSEEvent.step_completed "loading_references",
        SSEEvent.progress "prompt_enhancement"]
      let c := enhance_prompts env b
      match c.1.error with
      | some _ =>
        let fb := fallback_generation env request (g + 1)
        (fb.1, ev2 ++ [SSEEvent.errorEv], a.2 ++ c.2 ++ fb.2.1, fb.2.2.1,
          fb.2.2.2)
      | none =>
        let ev3 := ev2 ++ [SSEEvent.step_completed "prompt_enhancement",
          SSEEvent.progress "copy_generation"]
        let d := generate_ad_copy env c.1
        match d.1.error with
        | some _ =>
          let fb := fallback_generation env request (g + 1)
          (fb.1, ev3 ++ [SSEEvent.errorEv], a.2 ++ c.2 ++ d.2 ++ fb.2.1,
            fb.2.2.1, fb.2.2.2)
        | none =>
          let ev4 := ev3 ++ [SSEEvent.step_completed "copy_generation",
            SSEEvent.progress "image_generation"]
          let prompts := d.1.enhanced_prompts.getD []
          let r := gwpLoop env (some request_id) 0 (g + 1) (prompts.zip styles)
          let evImgs := ev4 ++ r.2.1
          if r.1 = [] then
            (r.1, evImgs, a.2 ++ c.2 ++ d.2 ++ r.2.2.1, [], r.2.2.2)
          else
            (r.1, evImgs ++ [SSEEvent.generation_complete],
              a.2 ++ c.2 ++ d.2 ++ r.2.2.1, [(request_id, r.1)], r.2.2.2)

/-- Model of the event generator of `POST /stream/generate`
(`streaming.py:21-182`).

Two facts about the source determine the shape of every run:
* `image_service._generate_enhanced_prompts` (`streaming.py:69`) does not
  exist on the service (the method is `_enhance_prompts`), so step 3 always
  raises `AttributeError` inside the inner `try`;
* `logger` is never defined in `streaming.py`, so the first statement of the
  inner `except` handler (`streaming.py:132`) raises `NameError`; the
  handler's own error yield and its `return` (`streaming.py:136`) are
  therefore unreachable, the `NameError` propagates to the outer `except`
  (`streaming.py:178`) which yields one error event, and control then reaches
  the unconditional final `end` yield (`streaming.py:182`).
So every run emits the start/progress header, the step-completed events for
the stages that succeeded before the failure, one error event, and a final
`end` event.  (Separately, the yields at `streaming.py:56-101` embed raw
newlines inside non-triple-quoted f-strings, a `SyntaxError` that prevents the
module from importing at all; the property "every delivered event sequence
ends with `end`" is then vacuous at the transport level, and this model gives
the generator semantics as written.) -/
def event_stream_streaming (env : Env) (pool : RefPool) (r1 r2 : Nat)
    (request : ImageGenerationRequest) : List SSEEvent :=
  let header := [SSEEvent.started,
    SSEEvent.progress "company_analysis",
    SSEEvent.progress "loading_references",
    SSEEvent.progress "prompt_enhancement",
    SSEEvent.progress "copy_generation",
    SSEEvent.progress "image_generation"]
  let st0 : WorkflowState := { request := request }
  let a := analyze_company env st0
  let inner :=
    match a.1.error with
    | some _ => []
    | none =>
      let b := load_reference_images env pool r1 r2 a.1
      match b.error with
      | some _ => [SSEEvent.step_completed "company_analysis"]
      | none => [SSEEvent.step_completed "company_analysis",
          SSEEvent.step_completed "loading_references"]
  header ++ inner ++ [SSEEvent.errorEv, SSEEvent.endEv]

/-- Model of the event generator of `POST /images/generate/stream`
(`image_generation.py:59-109`): a start event, then the service call (with no
callback, so its progress events are not streamed), then `completed` on a
non-empty result or an error event, and the unconditional final `end` yield
(`image_generation.py:98`). -/
def event_stream_images (env : Env) (pool : RefPool) (r1 r2 : Nat)
    (request : ImageGenerationRequest) (g : Nat) : List SSEEvent :=
  let images := (generate_images_with_progress env pool r1 r2 request g).1
  [SSEEvent.started]
    ++ (if images = [] then [SSEEvent.errorEv] else [SSEEvent.completed])
    ++ [SSEEvent.endEv]

/-- Whether an action is an image-generation capability call. -/
def isImageCall : Act → Bool
  | .imageCapCall _ => true
  | _ => false

/-- Number of image-generation capability calls in a trace. -/
def imageCallCount (t : List Act) : Nat :=
  t.countP isImageCall

/-- The styles of the image-generation capability calls of a trace, in call
order. -/
def imageCallStyles (t : List Act) : List ImageStyle :=
  t.filterMap (fun a => match a with | .imageCapCall s => some s | _ => none)

/-- Number of sleep actions in a trace. -/
def sleepCount (t : List Act) : Nat :=
  t.countP (fun a => match a with | .sleep _ => true | _ => false)

/-- Number of text-completion capability calls in a trace. -/
def textCallCount (t : List Act) : Nat :=
  t.countP (fun a => match a with | .textCapCall => true | _ => false)

/-- Helper for `pacedOk`: checks the tail with `prev` the preceding action. -/
def pacedOkFrom : Act → List Act → Bool
  | _, [] => true
  | prev, a :: rest =>
    (match a with
     | Act.imageCapCall _ => prev == Act.sleep 12
     | _ => true) && pacedOkFrom a rest

/-- Pacing predicate: every image-capability call that is not the very first
action of the trace is immediately preceded by `sleep 12`. -/
def pacedOk : List Act → Bool
  | [] => true
  | a :: rest => pacedOkFrom a rest

/-- The canonical trace shape of the rate-limited image-generation loop as a
function of the client flag and the styles processed: a 12-second sleep before
every iteration except the first, one capability call per iteration when the
client is present.  (Characterisation only; the executable loop is
`genImagesLoop`.) -/
def tracePattern (client : Bool) : Nat → List ImageStyle → List Act
  | _, [] => []
  | i, s :: rest =>
    (if 0 < i then [Act.sleep 12] else [])
      ++ (if client then [Act.imageCapCall s] else [])
      ++ tracePattern client (i + 1) rest

/-- Number of prompts the image-generation stage will iterate over. -/
def nodePromptCount (st : WorkflowState) : Nat :=
  match st.enhanced_prompts with
  | none => 0
  | some ps => if ps = [] then 0 else ps.length

/-- The prompt each style receives from `_enhance_prompts` when the loop
succeeds: the deterministic fallback without a client, otherwise the stripped
capability reply. -/
def enhancedPromptOf (env : Env) (request : ImageGenerationRequest)
    (s : ImageStyle) : String :=
  if env.llm = false then create_fallback_prompt_for_style request s
  else
    match env.enhanceCap s with
    | .ok c => c.trim
    | .err _ => ""

/-- Concrete sample request used in closed witnesses and counterexamples. -/
def reqA : ImageGenerationRequest :=
  { company_url := "https://acme.example",
    product_name := "Acme CRM",
    business_value := "faster sales",
    audience := "sales leaders",
    body_text := "Body copy text",
    footer_text := "Try Acme" }

/-- Concrete workflow state carrying `reqA` with five enhanced prompts. -/
def stFive : WorkflowState :=
  { request := reqA, enhanced_prompts := some ["p1", "p2", "p3", "p4", "p5"] }

/-- Concrete fresh workflow state carrying `reqA`. -/
def st0A : WorkflowState :=
  { request := reqA }

/-- Environment with no API key: both client handles absent. -/
def envNoKey : Env :=
  { openai_client := false,
    llm := false,
    analyzeCap := .err "no client",
    enhanceCap := fun _ => .err "no client",
    copyCap := .err "no client",
    imageCap := fun _ => .err "no client",
    modifyUploadOk := false,
    modifyCap := .err "no client",
    now := "2026-10-12T00:00:00" }

/-- Environment in which every capability call succeeds. -/
def envOk : Env :=
  { openai_client := true,
    llm := true,
    analyzeCap := .ok "analysis text",
    enhanceCap := fun _ => .ok "enhanced prompt",
    copyCap := .reply "json content" (some ⟨"H", "D", "C"⟩),
    imageCap := fun _ => .ok ["imagebytes"],
    modifyUploadOk := true,
    modifyCap := .ok ["imagebytes"],
    now := "2026-10-12T00:00:00" }

/-- Environment in which exactly the `creative` style's image call raises. -/
def envCreativeFails : Env :=
  { envOk with
    imageCap := fun s => if s = .creative then .err "quota" else .ok ["imagebytes"] }

/-- Environment in which every image call raises. -/
def envAllFail : Env :=
  { envOk with imageCap := fun _ => .err "quota" }

/-- Concrete modification request used in C3. -/
def reqMod : ImageModificationRequest :=
  { original_image_url := "http://localhost:8000/static/nonexistent.png",
    modification_prompt := "make the background blue" }


/-- In every branch the produced image carries the input style, the input
prompt and the input request id. -/
lemma single_fields (env : Env) (p : String) (s : ImageStyle)
    (rid : Option String) (g : Nat) :
    (generate_single_image env p s rid g).1.style = s ∧
    (generate_single_image env p s rid g).1.prompt_used = p ∧
    (generate_single_image env p s rid g).1.request_id = rid := by
  cases hb : env.openai_client
  · simp [generate_single_image, hb]
  · cases hc : env.imageCap s with
    | err m => simp [generate_single_image, hb, hc]
    | ok data => cases data <;> simp [generate_single_image, hb, hc]

/-- The call trace of one `_generate_single_image` invocation: exactly one
capability call when the client is present, none otherwise. -/
lemma single_trace (env : Env) (p : String) (s : ImageStyle)
    (rid : Option String) (g : Nat) :
    (generate_single_image env p s rid g).2.2 =
      if env.openai_client then [Act.imageCapCall s] else [] := by
  cases hb : env.openai_client
  · simp [generate_single_image, hb]
  · cases hc : env.imageCap s with
    | err m => simp [generate_single_image, hb, hc]
    | ok data => cases data <;> simp [generate_single_image, hb, hc]

/-- The uuid counter strictly increases. -/
lemma single_counter (env : Env) (p : String) (s : ImageStyle)
    (rid : Option String) (g : Nat) :
    g < (generate_single_image env p s rid g).2.1 := by
  cases hb : env.openai_client
  · simp [generate_single_image, hb]
  · cases hc : env.imageCap s with
    | err m => simp [generate_single_image, hb, hc]
    | ok data => cases data <;> simp [generate_single_image, hb, hc]

/-- The produced image's id is one of the uuid draws made during the call. -/
lemma single_id_fresh (env : Env) (p : String) (s : ImageStyle)
    (rid : Option String) (g : Nat) :
    ∃ k, g ≤ k ∧ k < (generate_single_image env p s rid g).2.1 ∧
      (generate_single_image env p s rid g).1.id = uuidStr k := by
  cases hb : env.openai_client
  · exact ⟨g, le_rfl, by simp [generate_single_image, hb], by simp [generate_single_image, hb]⟩
  · cases hc : env.imageCap s with
    | err m =>
        exact ⟨g, le_rfl, by simp [generate_single_image, hb, hc],
          by simp [generate_single_image, hb, hc]⟩
    | ok data =>
        cases data with
        | nil =>
            exact ⟨g + 1, by omega, by simp [generate_single_image, hb, hc],
              by simp [generate_single_image, hb, hc]⟩
        | cons b rest =>
            exact ⟨g + 1, by omega, by simp [generate_single_image, hb, hc],
              by simp [generate_single_image, hb, hc]⟩

/-- With no client, the result is the style-titled placeholder and no
capability call is made. -/
lemma single_noclient (env : Env) (p : String) (s : ImageStyle)
    (rid : Option String) (g : Nat) (hb : env.openai_client = false) :
    (generate_single_image env p s rid g).1.url =
      "https://placeholdit.com/1024x1024/f3f4f6/6b7280?text=Modified+"
        ++ s.titled ∧
    (generate_single_image env p s rid g).2.2 = [] := by
  simp [generate_single_image, hb]

/-- With a client present, a raising capability call yields the plain
placeholder image. -/
lemma single_err (env : Env) (p : String) (s : ImageStyle)
    (rid : Option String) (g : Nat) (m : String)
    (hb : env.openai_client = true) (hc : env.imageCap s = .err m) :
    (generate_single_image env p s rid g).1.url =
      "https://placeholdit.com/1024x1024/f3f4f6/6b7280" := by
  simp [generate_single_image, hb, hc]

/-- The action trace of the image-generation loop depends only on the client
flag and the style column of the zipped list: it is the canonical paced
pattern, regardless of the per-style capability outcomes. -/
lemma genImagesLoop_trace (env : Env) (rid : Option String) :
    ∀ (l : List (String × ImageStyle)) (i g : Nat),
      (genImagesLoop env rid i g l).2.1 =
        tracePattern env.openai_client i (l.map Prod.snd) := by
  intro l
  induction l with
  | nil => intro i g; simp [genImagesLoop, tracePattern]
  | cons hd tl ih =>
      intro i g
      obtain ⟨p, s⟩ := hd
      simp only [genImagesLoop, tracePattern, List.map_cons]
      rw [single_trace, ih]

/-- The images produced by the image-generation loop: one per zipped item, in
order, carrying the item's style and prompt; failed or client-less calls
contribute placeholder images (never omissions). -/
lemma genImagesLoop_images (env : Env) (rid : Option String) :
    ∀ (l : List (String × ImageStyle)) (i g : Nat),
      ((genImagesLoop env rid i g l).1).map (fun im => im.style) = l.map Prod.snd ∧
      ((genImagesLoop env rid i g l).1).map (fun im => im.prompt_used) = l.map Prod.fst ∧
      ∀ im ∈ (genImagesLoop env rid i g l).1,
        (env.openai_client = false →
          im.url = "https://placeholdit.com/1024x1024/f3f4f6/6b7280?text=Modified+"
            ++ im.style.titled) ∧
        (∀ m, env.openai_client = true → env.imageCap im.style = .err m →
          im.url = "https://placeholdit.com/1024x1024/f3f4f6/6b7280") := by
  intro l
  induction l with
  | nil => intro i g; simp [genImagesLoop]
  | cons hd tl ih =>
      intro i g
      obtain ⟨p, s⟩ := hd
      obtain ⟨hs, hp, hr⟩ := single_fields env p s rid g
      refine ⟨?_, ?_, ?_⟩
      · simp only [genImagesLoop, List.map_cons]
        rw [hs, (ih (i + 1) _).1]
      · simp only [genImagesLoop, List.map_cons]
        rw [hp, (ih (i + 1) _).2.1]
      · intro im him
        simp only [genImagesLoop, List.mem_cons] at him
        rcases him with him | him
        · subst him
          constructor
          · intro hb
            rw [hs]
            exact (single_noclient env p s rid g hb).1
          · intro m hb hc
            rw [hs] at hc
            exact single_err env p s rid g m hb hc
        · exact (ih (i + 1) _).2.2 im him

/-- The fallback loop issues one capability call per style (when the client is
present) and never sleeps. -/
lemma fbLoop_trace (env : Env) (request : ImageGenerationRequest)
    (rid : Option String) :
    ∀ (l : List ImageStyle) (g : Nat),
      (fbLoop env request rid g l).2.1 =
        if env.openai_client then l.map Act.imageCapCall else [] := by
  intro l
  induction l with
  | nil => intro g; cases env.openai_client <;> simp [fbLoop]
  | cons s tl ih =>
      intro g
      simp only [fbLoop]
      rw [single_trace, ih]
      cases env.openai_client <;> simp

/-- The fallback loop produces one image per style, in order, with the
deterministic fallback prompt, substituting placeholders on absence/failure. -/
lemma fbLoop_images (env : Env) (request : ImageGenerationRequest)
    (rid : Option String) :
    ∀ (l : List ImageStyle) (g : Nat),
      ((fbLoop env request rid g l).1).map (fun im => im.style) = l ∧
      ((fbLoop env request rid g l).1).map (fun im => im.prompt_used) =
        l.map (create_fallback_prompt request) ∧
      ∀ im ∈ (fbLoop env request rid g l).1,
        (env.openai_client = false →
          im.url = "https://placeholdit.com/1024x1024/f3f4f6/6b7280?text=Modified+"
            ++ im.style.titled) ∧
        (∀ m, env.openai_client = true → env.imageCap im.style = .err m →
          im.url = "https://placeholdit.com/1024x1024/f3f4f6/6b7280") := by
  intro l
  induction l with
  | nil => intro g; simp [fbLoop]
  | cons s tl ih =>
      intro g
      obtain ⟨hs, hp, _⟩ :=
        single_fields env (create_fallback_prompt request s) s rid g
      refine ⟨?_, ?_, ?_⟩
      · simp only [fbLoop, List.map_cons]
        rw [hs, (ih _).1]
      · simp only [fbLoop, List.map_cons]
        rw [hp, (ih _).2.1]
      · intro im him
        simp only [fbLoop, List.mem_cons] at him
        rcases him with him | him
        · subst him
          constructor
          · intro hb
            rw [hs]
            exact (single_noclient env _ s rid g hb).1
          · intro m hb hc
            rw [hs] at hc
            exact single_err env _ s rid g m hb hc
        · exact (ih _).2.2 im him

/-- Without a text-completion client the prompt-enhancement loop returns the
per-style fallback prompts and performs no capability call. -/
lemma enhanceLoop_noLLM (env : Env) (request : ImageGenerationRequest)
    (hl : env.llm = false) :
    ∀ l : List ImageStyle,
      enhanceLoop env request l =
        (.ok (l.map (create_fallback_prompt_for_style request)), []) := by
  intro l
  induction l with
  | nil => simp [enhanceLoop]
  | cons s tl ih => simp [enhanceLoop, hl, ih, Except.map]

/-- Whenever the prompt-enhancement loop succeeds, the result is exactly one
prompt per processed style, in order. -/
lemma enhanceLoop_ok (env : Env) (request : ImageGenerationRequest) :
    ∀ (l : List ImageStyle) (ps : List String),
      (enhanceLoop env request l).1 = .ok ps →
        ps = l.map (enhancedPromptOf env request) := by
  intro l
  induction l with
  | nil => intro ps h; simpa [enhanceLoop] using h.symm
  | cons s tl ih =>
      intro ps h
      cases hl : env.llm with
      | false =>
        cases hk : (enhanceLoop env request tl).1 with
        | error m => simp [enhanceLoop, hl, hk, Except.map] at h
        | ok ps' =>
            simp only [enhanceLoop, hl, hk, Except.map, if_true,
              Except.ok.injEq] at h
            rw [← h, ih ps' hk]
            simp [enhancedPromptOf, hl]
      | true =>
        cases hc : env.enhanceCap s with
        | err m => simp [enhanceLoop, hl, hc] at h
        | ok c =>
            cases hk : (enhanceLoop env request tl).1 with
            | error m => simp [enhanceLoop, hl, hc, hk, Except.map] at h
            | ok ps' =>
                simp only [enhanceLoop, hl, hc, hk, Except.map] at h
                simp only [Bool.true_eq_false, if_false,
                  Except.ok.injEq] at h
                rw [← h, ih ps' hk]
                simp [enhancedPromptOf, hl, hc]

/-- The second column of a zip is a take of the second list. -/
lemma map_snd_zip_take (l₁ : List α) :
    ∀ l₂ : List β, (l₁.zip l₂).map Prod.snd = l₂.take l₁.length := by
  induction l₁ with
  | nil => intro l₂; simp
  | cons a t ih =>
      intro l₂
      cases l₂ with
      | nil => simp
      | cons b t₂ => simp [List.zip_cons_cons, ih]

/-- The trace of the image-generation stage is the canonical paced pattern
over the prefix of the style order matching the number of prompts. -/
lemma node_trace (env : Env) (st : WorkflowState) (g : Nat) :
    (generate_images_node env st g).trace =
      tracePattern env.openai_client 0 (styles.take (nodePromptCount st)) := by
  cases hps : st.enhanced_prompts with
  | none => simp [generate_images_node, hps, nodePromptCount, tracePattern]
  | some ps =>
      by_cases hempty : ps = []
      · subst hempty
        simp [generate_images_node, hps, nodePromptCount, tracePattern]
      · simp only [generate_images_node, hps, nodePromptCount, if_neg hempty]
        rw [genImagesLoop_trace, map_snd_zip_take]

/-- Image-capability call count of the canonical pattern. -/
lemma tracePattern_count (client : Bool) :
    ∀ (l : List ImageStyle) (i : Nat),
      imageCallCount (tracePattern client i l) =
        if client then l.length else 0 := by
  intro l
  induction l with
  | nil => intro i; cases client <;> simp [tracePattern, imageCallCount]
  | cons s tl ih =>
      intro i
      have ihApp := ih (i + 1)
      simp only [imageCallCount] at ihApp ⊢
      cases i <;> cases client <;>
        simp [tracePattern, List.countP_append, List.countP_cons, isImageCall,
          ihApp]

/-- Image-capability call styles of the canonical pattern. -/
lemma tracePattern_styles (client : Bool) :
    ∀ (l : List ImageStyle) (i : Nat),
      imageCallStyles (tracePattern client i l) =
        if client then l else [] := by
  intro l
  induction l with
  | nil => intro i; cases client <;> simp [tracePattern, imageCallStyles]
  | cons s tl ih =>
      intro i
      have ihApp := ih (i + 1)
      simp only [imageCallStyles] at ihApp ⊢
      cases i <;> cases client <;>
        simp [tracePattern, List.filterMap_append, ihApp]

/-- A trace with no image-capability call is trivially paced. -/
lemma pacedOkFrom_noCall :
    ∀ (t : List Act) (prev : Act),
      (∀ a ∈ t, isImageCall a = false) → pacedOkFrom prev t = true := by
  intro t
  induction t with
  | nil => intro prev _; rfl
  | cons a rest ih =>
      intro prev h
      have ha := h a (List.mem_cons_self a rest)
      cases a with
      | sleep n =>
          simp [pacedOkFrom,
            ih (Act.sleep n) (fun b hb => h b (List.mem_cons_of_mem _ hb))]
      | imageCapCall s => simp [isImageCall] at ha
      | textCapCall =>
          simp [pacedOkFrom,
            ih Act.textCapCall (fun b hb => h b (List.mem_cons_of_mem _ hb))]

/-- Without a client the canonical pattern contains only sleeps. -/
lemma tracePattern_false_noCall :
    ∀ (l : List ImageStyle) (i : Nat) (a : Act),
      a ∈ tracePattern false i l → isImageCall a = false := by
  intro l
  induction l with
  | nil => intro i a ha; simp [tracePattern] at ha
  | cons s tl ih =>
      intro i a ha
      simp only [tracePattern, if_neg, List.mem_append] at ha
      rcases ha with ha | ha
      · rcases ha with ha | ha
        · cases i <;> simp_all [isImageCall]
        · simp at ha
      · exact ih (i + 1) a ha

/-- With a client present, from any position after the first the canonical
pattern is paced: every call is immediately preceded by the 12-second sleep. -/
lemma pacedOkFrom_tracePattern_true :
    ∀ (l : List ImageStyle) (i : Nat) (prev : Act), 1 ≤ i →
      pacedOkFrom prev (tracePattern true i l) = true := by
  intro l
  induction l with
  | nil => intro i prev _; rfl
  | cons s tl ih =>
      intro i prev hi
      have hpos : 0 < i := hi
      simp only [tracePattern, if_pos hpos, if_pos rfl]
      simp only [List.cons_append, List.nil_append, pacedOkFrom]
      simp only [Bool.true_and]
      have : (Act.sleep 12 == Act.sleep 12) = true := by decide
      simp only [this, Bool.true_and]
      exact ih (i + 1) (Act.imageCapCall s) (by omega)

/-- The canonical pattern started at position 0 is paced. -/
lemma pacedOk_tracePattern (client : Bool) (l : List ImageStyle) :
    pacedOk (tracePattern client 0 l) = true := by
  cases client with
  | false =>
      cases ht : tracePattern false 0 l with
      | nil => rfl
      | cons a rest =>
          have hmem : ∀ b ∈ rest, isImageCall b = false := by
            intro b hb
            exact tracePattern_false_noCall l 0 b (by rw [ht]; exact List.mem_cons_of_mem _ hb)
          simpa [pacedOk] using pacedOkFrom_noCall rest a hmem
  | true =>
      cases l with
      | nil => rfl
      | cons s tl =>
          simp only [tracePattern, if_neg (by omega : ¬ 0 < 0), if_pos rfl]
          simp only [List.nil_append, List.cons_append, pacedOk]
          exact pacedOkFrom_tracePattern_true tl 1 (Act.imageCapCall s) le_rfl

/-- The main-reference selection keeps at most one image. -/
lemma mainRefSelection_length_le (env : Env) (r1 : Nat)
    (mains : List RefFile) : (mainRefSelection env r1 mains).length ≤ 1 := by
  cases mains with
  | nil => simp [mainRefSelection]
  | cons x xs =>
      simp only [mainRefSelection]
      split <;> simp

/-- The other-reference selection keeps at most two images. -/
lemma otherRefSelection_length_le (env : Env) (r2 : Nat)
    (others : List RefFile) : (otherRefSelection env r2 others).length ≤ 2 := by
  by_cases h : others = []
  · simp [otherRefSelection, h]
  · simp only [otherRefSelection, if_neg h]
    calc (List.filterMap _ (randomSample r2 others (min 2 others.length))).length
        ≤ (randomSample r2 others (min 2 others.length)).length :=
          List.length_filterMap_le _ _
      _ ≤ 2 := by
          simp only [randomSample, List.length_take, List.length_rotate]
          omega

/-- C7: for every run of the image-generation stage, at most 5 image-capability
calls are issued, they are issued sequentially in the fixed style order, the
trace is paced (a fixed 12-second sleep immediately precedes every call except
the first), and the trace equals the canonical pattern `tracePattern`, which
depends only on the client flag and the prompt count — hence the pacing is
unconditional, applied even if earlier calls failed. -/
theorem generate_images_node_rate_limit (env : Env) (st : WorkflowState)
    (g : Nat) :
    imageCallCount (generate_images_node env st g).trace ≤ 5 ∧
    pacedOk (generate_images_node env st g).trace = true ∧
    imageCallStyles (generate_images_node env st g).trace =
      (if env.openai_client then styles.take (nodePromptCount st) else []) ∧
    (generate_images_node env st g).trace =
      tracePattern env.openai_client 0 (styles.take (nodePromptCount st)) := by
  have ht := node_trace env st g
  refine ⟨?_, ?_, ?_, ht⟩
  · rw [ht, tracePattern_count]
    cases hb : env.openai_client
    · simp
    · have h5 : styles.length = 5 := by decide
      simp [List.length_take, h5]
  · rw [ht]
    exact pacedOk_tracePattern _ _
  · rw [ht, tracePattern_styles]

/-- C9: the reference-asset-loading stage never touches the failure field, for
every pool condition: it degrades to a reference list of length at most 3,
decomposable as at most one primary-class image followed by at most two
non-primary images, and a nonexistent pool directory yields the empty list. -/
theorem load_reference_images_safe (env : Env) (pool : RefPool) (r1 r2 : Nat)
    (st : WorkflowState) :
    (load_reference_images env pool r1 r2 st).error = st.error ∧
    (load_reference_images env pool r1 r2 st).reference_images =
      some (referenceSelection env pool r1 r2) ∧
    (referenceSelection env pool r1 r2).length ≤ 3 ∧
    (∃ a b, referenceSelection env pool r1 r2 = a ++ b ∧
      a.length ≤ 1 ∧ b.length ≤ 2) ∧
    (pool.dirExists = false → referenceSelection env pool r1 r2 = []) := by
  refine ⟨rfl, rfl, ?_, ?_, ?_⟩
  · unfold referenceSelection
    split
    · split
      · simp
      · simp only [List.length_append]
        have h1 := mainRefSelection_length_le env r1
          (pool.files.filter (fun f => f.name.startsWith "main_ref"))
        have h2 := otherRefSelection_length_le env r2
          (pool.files.filter (fun f => !(f.name.startsWith "main_ref")))
        omega
    · simp
  · unfold referenceSelection
    split
    · split
      · exact ⟨[], [], by simp⟩
      · exact ⟨_, _, rfl,
          mainRefSelection_length_le env r1 _,
          otherRefSelection_length_le env r2 _⟩
    · exact ⟨[], [], by simp⟩
  · intro h
    unfold referenceSelection
    simp [h]

/-- C10: the single-image helper is total by construction (every Python branch
including the `except` handler is a value, never a raise), and in every branch
the returned image's `style` equals the input style, `prompt_used` equals the
input prompt, `request_id` equals the input id, and its `id` is a uuid drawn
freshly during the call; with no client it is the style-titled placeholder
with no capability call, and a raising capability call yields the plain
placeholder. -/
theorem generate_single_image_total (env : Env) (p : String) (s : ImageStyle)
    (rid : Option String) (g : Nat) :
    (generate_single_image env p s rid g).1.style = s ∧
    (generate_single_image env p s rid g).1.prompt_used = p ∧
    (generate_single_image env p s rid g).1.request_id = rid ∧
    g < (generate_single_image env p s rid g).2.1 ∧
    (∃ k, g ≤ k ∧ k < (generate_single_image env p s rid g).2.1 ∧
      (generate_single_image env p s rid g).1.id = uuidStr k) ∧
    (env.openai_client = false →
      (generate_single_image env p s rid g).1.url =
        "https://placeholdit.com/1024x1024/f3f4f6/6b7280?text=Modified+"
          ++ s.titled ∧
      (generate_single_image env p s rid g).2.2 = []) ∧
    (∀ m, env.openai_client = true → env.imageCap s = .err m →
      (generate_single_image env p s rid g).1.url =
        "https://placeholdit.com/1024x1024/f3f4f6/6b7280") := by
  obtain ⟨h1, h2, h3⟩ := single_fields env p s rid g
  exact ⟨h1, h2, h3, single_counter env p s rid g,
    single_id_fresh env p s rid g,
    fun hb => single_noclient env p s rid g hb,
    fun m hb hc => single_err env p s rid g m hb hc⟩

/-- Witness for C10 at a concrete input (no client): the hypotheses of the
conditional conjuncts are discharged by `rfl`. -/
theorem generate_single_image_total_witness :
    (generate_single_image envNoKey "p" ImageStyle.modern none 0).1.style =
      ImageStyle.modern ∧
    (generate_single_image envNoKey "p" ImageStyle.modern none 0).1.url =
      "https://placeholdit.com/1024x1024/f3f4f6/6b7280?text=Modified+"
        ++ ImageStyle.modern.titled ∧
    (generate_single_image envNoKey "p" ImageStyle.modern none 0).2.2 = [] := by
  obtain ⟨h1, _, _, _, _, h6, _⟩ :=
    generate_single_image_total envNoKey "p" ImageStyle.modern none 0
  exact ⟨h1, (h6 rfl).1, (h6 rfl).2⟩

/-- Witness for C9 at a concrete input: a nonexistent pool directory yields an
empty reference list and an unchanged (empty) failure field. -/
theorem load_reference_images_safe_witness :
    (load_reference_images envNoKey { dirExists := false, files := [] } 0 0
      st0A).error = none ∧
    (load_reference_images envNoKey { dirExists := false, files := [] } 0 0
      st0A).reference_images = some [] := by
  obtain ⟨h1, h2, _, _, h5⟩ :=
    load_reference_images_safe envNoKey { dirExists := false, files := [] } 0 0
      st0A
  exact ⟨h1.trans rfl, h2.trans (by rw [h5 rfl])⟩

/-- C5: for every run of either streaming endpoint, the delivered event
sequence ends with a terminal `end` event and that event is the last (and
only) `end` on the channel.  For `streaming.py` this holds because the inner
`except` handler's first statement references the undefined name `logger`, so
its early `return` is unreachable and control always reaches the outer
handler and the final unconditional `end` yield. -/
theorem streaming_end_event_last (env : Env) (pool : RefPool) (r1 r2 : Nat)
    (request : ImageGenerationRequest) (g : Nat) :
    (∃ pre, event_stream_streaming env pool r1 r2 request =
        pre ++ [SSEEvent.endEv] ∧ SSEEvent.endEv ∉ pre) ∧
    (∃ pre, event_stream_images env pool r1 r2 request g =
        pre ++ [SSEEvent.endEv] ∧ SSEEvent.endEv ∉ pre) := by
  constructor
  · unfold event_stream_streaming
    cases h1 : (analyze_company env { request := request }).1.error with
    | some m =>
        refine ⟨[.started, .progress "company_analysis",
          .progress "loading_references", .progress "prompt_enhancement",
          .progress "copy_generation", .progress "image_generation",
          .errorEv], ?_, by decide⟩
        simp [h1]
    | none =>
        cases h2 : (load_reference_images env pool r1 r2
            (analyze_company env { request := request }).1).error with
        | some m =>
            refine ⟨[.started, .progress "company_analysis",
              .progress "loading_references", .progress "prompt_enhancement",
              .progress "copy_generation", .progress "image_generation",
              .step_completed "company_analysis", .errorEv], ?_, by decide⟩
            simp [h1, h2]
        | none =>
            refine ⟨[.started, .progress "company_analysis",
              .progress "loading_references", .progress "prompt_enhancement",
              .progress "copy_generation", .progress "image_generation",
              .step_completed "company_analysis",
              .step_completed "loading_references", .errorEv], ?_, by decide⟩
            simp [h1, h2]
  · unfold event_stream_images
    by_cases h : (generate_images_with_progress env pool r1 r2 request g).1 = []
    · exact ⟨[.started, .errorEv], by simp [h], by decide⟩
    · exact ⟨[.started, .completed], by simp [h], by decide⟩

/-- Counterexample to C1 as stated: when exactly one style's capability call
fails (here `creative`), the final image list does not have 4 entries with the
failed style omitted — `_generate_single_image` converts the failure into a
placeholder image, so all 5 styles are present. -/
theorem skip_failed_style_counterexample :
    ¬ (((generate_images_node envCreativeFails stFive 0).state.generated_images.getD
          []).length = 4 ∧
        ∀ im ∈ (generate_images_node envCreativeFails stFive
            0).state.generated_images.getD [],
          im.style ≠ ImageStyle.creative) := by
  intro h
  have h4 := h.1
  have h5 : ((generate_images_node envCreativeFails stFive
      0).state.generated_images.getD []).length = 5 := by rfl
  omega

/-- C1 amended: when the enhanced prompts are present (one per style), a run
in which some styles' capability calls fail still produces one image per style
in style order — the failed styles contribute placeholder images rather than
being omitted. -/
theorem per_style_failure_yields_placeholder (env : Env) (st : WorkflowState)
    (ps : List String) (g : Nat) (hps : st.enhanced_prompts = some ps)
    (h5 : ps.length = 5) :
    ∃ l, (generate_images_node env st g).state.generated_images = some l ∧
      l.length = 5 ∧
      l.map (fun im => im.style) = styles ∧
      ∀ im ∈ l, ∀ m, env.openai_client = true →
        env.imageCap im.style = .err m →
        im.url = "https://placeholdit.com/1024x1024/f3f4f6/6b7280" := by
  have hne : ps ≠ [] := by
    intro hnil
    rw [hnil] at h5
    simp at h5
  obtain ⟨hstyle, _, hmem⟩ := genImagesLoop_images env (some (uuidStr g))
    (ps.zip styles) 0 (g + 1)
  have hcol : (ps.zip styles).map Prod.snd = styles := by
    rw [map_snd_zip_take, h5]; rfl
  refine ⟨(genImagesLoop env (some (uuidStr g)) 0 (g + 1) (ps.zip styles)).1,
    ?_, ?_, ?_, ?_⟩
  · simp [generate_images_node, hps, hne]
  · have := congrArg List.length (hstyle.trans hcol)
    simpa using this
  · exact hstyle.trans hcol
  · intro im him m hb hc
    exact (hmem im him).2 m hb hc

/-- Witness for C1's amended theorem at the concrete failing-creative run. -/
theorem per_style_failure_yields_placeholder_witness :
    ∃ l, (generate_images_node envCreativeFails stFive
        0).state.generated_images = some l ∧
      l.length = 5 ∧
      l.map (fun im => im.style) = styles ∧
      ∀ im ∈ l, ∀ m, envCreativeFails.openai_client = true →
        envCreativeFails.imageCap im.style = .err m →
        im.url = "https://placeholdit.com/1024x1024/f3f4f6/6b7280" :=
  per_style_failure_yields_placeholder envCreativeFails stFive
    ["p1", "p2", "p3", "p4", "p5"] 0 rfl rfl

/-- Counterexample to C4 as stated: with prompts present and every per-style
capability call failing, the stage neither produces zero images nor sets the
failure field — it produces 5 placeholder images and leaves `error` unset. -/
theorem all_fail_zero_images_counterexample :
    (generate_images_node envAllFail stFive 0).state.error = none ∧
    ((generate_images_node envAllFail stFive 0).state.generated_images.getD
      []).length = 5 := by
  exact ⟨rfl, rfl⟩

/-- C4 amended: when style prompts are present and every per-style capability
call fails, the stage produces one plain-placeholder image per prompt (5 for 5
prompts), leaves the failure field unchanged, and still stores the session;
the failure field is set only when the prompts are absent or empty. -/
theorem all_fail_produces_placeholders (env : Env) (st : WorkflowState)
    (ps : List String) (g : Nat) (hps : st.enhanced_prompts = some ps)
    (h5 : ps.length = 5) (hb : env.openai_client = true)
    (herr : ∀ s, ∃ m, env.imageCap s = .err m) :
    (generate_images_node env st g).state.error = st.error ∧
    ∃ l, (generate_images_node env st g).state.generated_images = some l ∧
      l.length = 5 ∧
      ∀ im ∈ l,
        im.url = "https://placeholdit.com/1024x1024/f3f4f6/6b7280" := by
  have hne : ps ≠ [] := by
    intro hnil
    rw [hnil] at h5
    simp at h5
  obtain ⟨hstyle, _, hmem⟩ := genImagesLoop_images env (some (uuidStr g))
    (ps.zip styles) 0 (g + 1)
  have hcol : (ps.zip styles).map Prod.snd = styles := by
    rw [map_snd_zip_take, h5]; rfl
  refine ⟨by simp [generate_images_node, hps, hne], ?_⟩
  refine ⟨(genImagesLoop env (some (uuidStr g)) 0 (g + 1) (ps.zip styles)).1,
    ?_, ?_, ?_⟩
  · simp [generate_images_node, hps, hne]
  · have := congrArg List.length (hstyle.trans hcol)
    simpa using this
  · intro im him
    obtain ⟨m, hm⟩ := herr im.style
    exact (hmem im him).2 m hb hm

/-- Witness for C4's amended theorem at the concrete all-fail run. -/
theorem all_fail_produces_placeholders_witness :
    (generate_images_node envAllFail stFive 0).state.error = none ∧
    ∃ l, (generate_images_node envAllFail stFive 0).state.generated_images =
        some l ∧
      l.length = 5 ∧
      (∀ im ∈ l,
        im.url = "https://placeholdit.com/1024x1024/f3f4f6/6b7280") := by
  obtain ⟨h1, h2⟩ := all_fail_produces_placeholders envAllFail stFive
    ["p1", "p2", "p3", "p4", "p5"] 0 rfl rfl rfl
    (fun s => ⟨"quota", rfl⟩)
  exact ⟨h1.trans rfl, h2⟩

/-- C8: whenever the prompt-enhancement stage succeeds (does not record a
failure), the resulting prompt list has exactly one prompt per style in the
fixed order (length 5); and when the text-completion capability is absent the
result is exactly the deterministic per-style fallback table with an empty
capability-call trace. -/
theorem enhance_prompts_five_styles (env : Env) (st : WorkflowState) :
    ((enhance_prompts env st).1.error = none →
      ∃ ps, (enhance_prompts env st).1.enhanced_prompts = some ps ∧
        ps = styles.map (enhancedPromptOf env st.request) ∧
        ps.length = 5) ∧
    (env.llm = false →
      enhance_prompts env st =
        ({ st with
            enhanced_prompts := some
              (styles.map (create_fallback_prompt_for_style st.request)) },
          [])) := by
  constructor
  · intro herr
    cases hk : (enhanceLoop env st.request styles).1 with
    | error m =>
        exfalso
        simp [enhance_prompts, hk] at herr
    | ok ps =>
        refine ⟨ps, ?_, enhanceLoop_ok env st.request styles ps hk, ?_⟩
        · simp [enhance_prompts, hk]
        · rw [enhanceLoop_ok env st.request styles ps hk]
          simp [styles]
  · intro hl
    have hloop := enhanceLoop_noLLM env st.request hl styles
    simp [enhance_prompts, hloop]

/-- Witness for C8 at the concrete no-capability run. -/
theorem enhance_prompts_five_styles_witness :
    ∃ ps, (enhance_prompts envNoKey st0A).1.enhanced_prompts = some ps ∧
      ps = styles.map (enhancedPromptOf envNoKey st0A.request) ∧
      ps.length = 5 :=
  (enhance_prompts_five_styles envNoKey st0A).1 rfl

/-- Counterexample to C2 as stated: on the no-capability path, a non-empty
`body_text`/`footer_text` does not override the produced
`description`/`cta` — the stage stores a fixed template (`cta` is
"Book a Call") that ignores both caller texts. -/
theorem body_footer_override_counterexample :
    reqA.body_text ≠ "" ∧ reqA.footer_text ≠ "" ∧
    ((generate_ad_copy envNoKey st0A).1.ad_copy.getD
      ⟨"", "", ""⟩).description ≠ reqA.body_text ∧
    ((generate_ad_copy envNoKey st0A).1.ad_copy.getD
      ⟨"", "", ""⟩).cta ≠ reqA.footer_text := by
  refine ⟨by decide, by decide, by decide, by decide⟩

/-- C2 amended: the copy stage never fails and produces its record per path —
the deterministic no-capability template, the call-error template, or the
parse-failure template (all with `cta = "Book a Call"`, ignoring the caller
texts), while a successfully parsed capability reply is stored entirely
unchanged; the caller-supplied `body_text`/`footer_text` are only appended as
override instructions inside the prompt (`adCopyPrompt`), never applied to
the produced record. -/
theorem ad_copy_paths (env : Env) (st : WorkflowState) :
    (generate_ad_copy env st).1.error = st.error ∧
    (env.llm = false →
      (generate_ad_copy env st).1.ad_copy =
        some (adCopyFallbackNoLLM st.request)) ∧
    (∀ m, env.llm = true → env.copyCap = .err m →
      (generate_ad_copy env st).1.ad_copy =
        some (adCopyFallbackError st.request)) ∧
    (∀ c, env.llm = true → env.copyCap = .reply c none →
      (generate_ad_copy env st).1.ad_copy =
        some (adCopyFallbackParse st.request)) ∧
    (∀ c r, env.llm = true → env.copyCap = .reply c (some r) →
      (generate_ad_copy env st).1.ad_copy = some r) := by
  refine ⟨?_, ?_, ?_, ?_, ?_⟩
  · cases hl : env.llm
    · simp [generate_ad_copy, hl]
    · cases hc : env.copyCap with
      | err m => simp [generate_ad_copy, hl, hc]
      | reply c p => cases p <;> simp [generate_ad_copy, hl, hc]
  · intro hl
    simp [generate_ad_copy, hl]
  · intro m hl hc
    simp [generate_ad_copy, hl, hc]
  · intro c hl hc
    simp [generate_ad_copy, hl, hc]
  · intro c r hl hc
    simp [generate_ad_copy, hl, hc]

/-- Witness for C2's amended theorem: with non-empty caller texts in `reqA`,
the parsed capability record is stored completely unchanged. -/
theorem ad_copy_paths_witness :
    (generate_ad_copy envOk st0A).1.ad_copy =
      some { headline := "H", description := "D", cta := "C" } :=
  (ad_copy_paths envOk st0A).2.2.2.2 "json content"
    { headline := "H", description := "D", cta := "C" } rfl rfl

/-- Counterexample to C3 as stated: with the image-generation capability
unavailable (no client), `modify_image` does not report a failure — it
returns a placeholder image (even for a nonexistent original image). -/
theorem modify_placeholder_counterexample :
    envNoKey.openai_client = false ∧
    (modify_image envNoKey [] [] reqMod 0).1 =
      Except.ok
        { id := uuidStr 0,
          url := "https://placeholdit.com/1024x1024/f3f4f6/6b7280?text=?text=Modified+Image",
          style := ImageStyle.professional,
          prompt_used := modifyPrompt reqMod.modification_prompt,
          generation_timestamp := envNoKey.now,
          request_id := none } := by
  exact ⟨rfl, rfl⟩

/-- C3 amended: the modification operation never touches the artifact store;
with the client present, a missing original file, an upload failure, a raising
capability call, or an empty capability payload all propagate as reported
failures (no placeholder), and the success path returns a fresh image; but
when the capability is unavailable (no client) a placeholder image is
returned instead of a failure, without consulting the original image. -/
theorem modify_image_failure_paths (env : Env) (static_files : List String)
    (storage : List (String × List GeneratedImage))
    (request : ImageModificationRequest) (g : Nat) :
    (modify_image env static_files storage request g).2 = storage ∧
    (env.openai_client = false →
      (modify_image env static_files storage request g).1 =
        Except.ok
          { id := uuidStr g,
            url := "https://placeholdit.com/1024x1024/f3f4f6/6b7280?text=?text=Modified+Image",
            style := ImageStyle.professional,
            prompt_used := modifyPrompt request.modification_prompt,
            generation_timestamp := env.now,
            request_id := none }) ∧
    (env.openai_client = true →
      ((request.original_image_url.splitOn "/static/").getLastD "")
        ∉ static_files →
      ∃ m, (modify_image env static_files storage request g).1 =
        Except.error m) ∧
    (∀ m, env.openai_client = true → env.modifyCap = .err m →
      ∃ m2, (modify_image env static_files storage request g).1 =
        Except.error m2) ∧
    (env.openai_client = true → env.modifyCap = .ok [] →
      ∃ m2, (modify_image env static_files storage request g).1 =
        Except.error m2) ∧
    (∀ b rest, env.openai_client = true →
      ((request.original_image_url.splitOn "/static/").getLastD "")
        ∈ static_files →
      env.modifyUploadOk = true → env.modifyCap = .ok (b :: rest) →
      (modify_image env static_files storage request g).1 =
        Except.ok
          { id := uuidStr (g + 1),
            url := "http://localhost:8000/static/modified_"
              ++ (uuidStr g).take 8 ++ ".png",
            style := ImageStyle.professional,
            prompt_used := modifyPrompt request.modification_prompt,
            generation_timestamp := env.now,
            request_id := none }) := by
  refine ⟨rfl, ?_, ?_, ?_, ?_, ?_⟩
  · intro hb
    simp [modify_image, hb]
  · intro hb hf
    simp only [List.getLastD_eq_getLast?] at hf
    exact ⟨_, by simp [modify_image, hb, hf]; rfl⟩
  · intro m hb hc
    by_cases hf : ((request.original_image_url.splitOn "/static/").getLastD "")
        ∈ static_files
    all_goals simp only [List.getLastD_eq_getLast?] at hf
    · by_cases hu : env.modifyUploadOk = false
      · exact ⟨_, by simp [modify_image, hb, hf, hu]; rfl⟩
      · exact ⟨_, by simp [modify_image, hb, hf, hu, hc]; rfl⟩
    · exact ⟨_, by simp [modify_image, hb, hf]; rfl⟩
  · intro hb hc
    by_cases hf : ((request.original_image_url.splitOn "/static/").getLastD "")
        ∈ static_files
    all_goals simp only [List.getLastD_eq_getLast?] at hf
    · by_cases hu : env.modifyUploadOk = false
      · exact ⟨_, by simp [modify_image, hb, hf, hu]; rfl⟩
      · exact ⟨_, by simp [modify_image, hb, hf, hu, hc]; rfl⟩
    · exact ⟨_, by simp [modify_image, hb, hf]; rfl⟩
  · intro b rest hb hf hu hc
    simp only [List.getLastD_eq_getLast?] at hf
    simp [modify_image, hb, hf, hu, hc]

/-- Witness for C3's amended theorem: a missing original file with the client
present is a reported failure, with the store untouched. -/
theorem modify_image_failure_paths_witness :
    (modify_image envOk [] [] reqMod 0).2 = ([] : List (String × List GeneratedImage)) ∧
    ∃ m, (modify_image envOk [] [] reqMod 0).1 = Except.error m := by
  obtain ⟨h1, _, h3, _⟩ := modify_image_failure_paths envOk [] [] reqMod 0
  exact ⟨h1, h3 rfl (by simp)⟩

/-- Counterexample to C6 as stated: the fallback path issues its 5 capability
calls with no inter-call sleep at all, so it does not apply the pacing delay
of the main image-generation loop (whose trace satisfies `pacedOk`). -/
theorem fallback_no_pacing_counterexample :
    imageCallCount (fallback_generation envOk reqA 0).2.1 = 5 ∧
    sleepCount (fallback_generation envOk reqA 0).2.1 = 0 ∧
    pacedOk (fallback_generation envOk reqA 0).2.1 = false := by
  refine ⟨by decide, by decide, by decide⟩

/-- C6 amended: the fallback full-pipeline path attempts one image-generation
call per style for all 5 styles (when the client is present) using the
deterministic per-style prompts, makes zero text-completion calls, and always
returns exactly 5 images (placeholders for absent or failing capability) —
but it applies no inter-call pacing delay (zero sleeps), unlike the main
loop. -/
theorem fallback_generation_no_delay (env : Env)
    (request : ImageGenerationRequest) (g : Nat) :
    ((fallback_generation env request g).1).map (fun im => im.style) = styles ∧
    (fallback_generation env request g).1.length = 5 ∧
    ((fallback_generation env request g).1).map (fun im => im.prompt_used) =
      styles.map (create_fallback_prompt request) ∧
    textCallCount (fallback_generation env request g).2.1 = 0 ∧
    sleepCount (fallback_generation env request g).2.1 = 0 ∧
    (env.openai_client = true →
      imageCallCount (fallback_generation env request g).2.1 = 5) ∧
    (∀ im ∈ (fallback_generation env request g).1,
      (env.openai_client = false →
        im.url = "https://placeholdit.com/1024x1024/f3f4f6/6b7280?text=Modified+"
          ++ im.style.titled) ∧
      (∀ m, env.openai_client = true → env.imageCap im.style = .err m →
        im.url = "https://placeholdit.com/1024x1024/f3f4f6/6b7280")) := by
  obtain ⟨hstyle, hprompt, hmem⟩ :=
    fbLoop_images env request (some (uuidStr g)) styles (g + 1)
  have htr := fbLoop_trace env request (some (uuidStr g)) styles (g + 1)
  have hfb1 : (fallback_generation env request g).1 =
      (fbLoop env request (some (uuidStr g)) (g + 1) styles).1 := rfl
  have hfb2 : (fallback_generation env request g).2.1 =
      (fbLoop env request (some (uuidStr g)) (g + 1) styles).2.1 := rfl
  refine ⟨?_, ?_, ?_, ?_, ?_, ?_, ?_⟩
  · rw [hfb1]
    exact hstyle
  · rw [hfb1]
    have := congrArg List.length hstyle
    simpa using this
  · rw [hfb1]
    exact hprompt
  · rw [hfb2, htr]
    cases env.openai_client <;> decide
  · rw [hfb2, htr]
    cases env.openai_client <;> decide
  · intro hb
    rw [hfb2, htr, hb]
    decide
  · intro im him
    rw [hfb1] at him
    exact hmem im him

/-- Witness for C6's amended theorem: with the client present, exactly 5
capability calls are made. -/
theorem fallback_generation_no_delay_witness :
    imageCallCount (fallback_generation envOk reqA 0).2.1 = 5 :=
  (fallback_generation_no_delay envOk reqA 0).2.2.2.2.2.1 rfl
